import Mathlib

/-!
Verification of the cppunits dimensional-analysis core.

The development shallowly embeds the two source headers:

* `src/gcd.hpp` — `units::abs`, `units::gcd`, `units::lcm` over signed
  integers, embedded as functions on `Int`.  The C++ `%` and `/` in those
  functions are only ever applied to non-negative operands (both arguments
  are passed through `abs` first), where C++ truncated division agrees with
  the Euclidean `%` and `/` of Lean on `Int`, so the embedding uses the latter.

* `src/unit.hpp` — the `Unit` class template.  Its compile-time tags
  (the seven dimension exponents `Time, Distance, Luminance, Temperature,
  Radians, Amperes, Mass` and the scale parameters `Num, Denom`) become
  ordinary fields of a structure, and each operator becomes a function on
  that structure whose result fields are exactly the ones computed by the
  C++ result type of the operator.  `std::ratio<N, D>` normalisation and
  `std::ratio_divide` are embedded as `ratioReduce` and `ratio_divide`.
  The `double` storage type is modelled by exact rationals `ℚ`; the
  `int64_t` storage type is modelled by `Int`, with C++ truncated division
  rendered as `Int.tdiv` wherever a possibly negative value is divided.
-/

namespace units

/-- Embeds `units::abs` from `src/gcd.hpp`: `i < T(0) ? -i : i`. -/
def abs (i : Int) : Int := if i < 0 then -i else i

theorem abs_eq_natAbs (i : Int) : abs i = (i.natAbs : Int) := by
  unfold abs; split <;> omega

theorem emod_natAbs_lt (m n : Int) (h : n ≠ 0) :
    ((m.natAbs : Int) % (n.natAbs : Int)).natAbs < n.natAbs := by
  have h1 : (0 : Int) < (n.natAbs : Int) := by omega
  have h2 := Int.emod_lt_of_pos (m.natAbs : Int) h1
  have h3 := Int.emod_nonneg (m.natAbs : Int) (by omega : (n.natAbs : Int) ≠ 0)
  omega

/-- Embeds `units::gcd` from `src/gcd.hpp`:
`n == 0 ? abs(m) : gcd(n, abs(m) % abs(n))`.
Both operands of the C++ `%` are non-negative, so it agrees with `Int.emod`. -/
def gcd (m n : Int) : Int :=
  if h : n = 0 then abs m else gcd n (abs m % abs n)
termination_by n.natAbs
decreasing_by
  simp only [abs_eq_natAbs]
  exact emod_natAbs_lt m n h

theorem gcd_def (m n : Int) :
    gcd m n = if n = 0 then abs m else gcd n (abs m % abs n) := by
  rw [gcd.eq_def]
  by_cases h : n = 0
  · rw [dif_pos h, if_pos h]
  · rw [dif_neg h, if_neg h]

/-- Embeds `units::lcm` from `src/gcd.hpp`:
`m * n == 0 ? 0 : (abs(m) / gcd(m,n)) * abs(n)`.
Both operands of the C++ `/` are non-negative, so it agrees with `Int.ediv`. -/
def lcm (m n : Int) : Int :=
  if m * n = 0 then 0 else (abs m / gcd m n) * abs n

theorem gcd_nonneg_aux : ∀ (k : Nat) (m n : Int), n.natAbs ≤ k → 0 ≤ gcd m n := by
  intro k
  induction k with
  | zero =>
    intro m n hn
    have hz : n = 0 := by omega
    rw [gcd_def]
    simp [hz, abs_eq_natAbs]
  | succ k ih =>
    intro m n hn
    rw [gcd_def]
    split
    · simp [abs_eq_natAbs]
    · rename_i h
      refine ih n (abs m % abs n) ?_
      have := emod_natAbs_lt m n h
      simp only [abs_eq_natAbs]
      omega

theorem gcd_nonneg (m n : Int) : 0 ≤ gcd m n :=
  gcd_nonneg_aux n.natAbs m n le_rfl

theorem gcd_eq_zero_aux :
    ∀ (k : Nat) (m n : Int), n.natAbs ≤ k → (gcd m n = 0 ↔ m = 0 ∧ n = 0) := by
  intro k
  induction k with
  | zero =>
    intro m n hn
    have hz : n = 0 := by omega
    rw [gcd_def]
    simp [hz, abs_eq_natAbs]
  | succ k ih =>
    intro m n hn
    rw [gcd_def]
    split
    · rename_i hz
      simp [hz, abs_eq_natAbs]
    · rename_i h
      rw [ih n (abs m % abs n) (by have := emod_natAbs_lt m n h; simp only [abs_eq_natAbs]; omega)]
      constructor
      · rintro ⟨h1, -⟩; exact absurd h1 h
      · rintro ⟨-, h2⟩; exact absurd h2 h

theorem gcd_eq_zero_iff (m n : Int) : gcd m n = 0 ↔ m = 0 ∧ n = 0 :=
  gcd_eq_zero_aux n.natAbs m n le_rfl

theorem abs_of_nonneg_int (i : Int) (h : 0 ≤ i) : abs i = i := by
  unfold abs; split <;> omega

/-- Claim C7: `gcd(m, n)` equals `|m|` when `n = 0` and
`gcd(n, |m| mod |n|)` otherwise; it is always non-negative;
`gcd(gcd(m, n), 0) = gcd(m, n)`; and `gcd(0, 0) = 0`. -/
theorem C7_gcd_spec (m n : Int) :
    gcd m n = (if n = 0 then abs m else gcd n (abs m % abs n)) ∧
    0 ≤ gcd m n ∧
    gcd (gcd m n) 0 = gcd m n ∧
    gcd 0 0 = 0 := by
  refine ⟨gcd_def m n, gcd_nonneg m n, ?_, ?_⟩
  · rw [gcd_def]
    simp [abs_of_nonneg_int _ (gcd_nonneg m n)]
  · rw [gcd_def]; simp [abs]

/-- Claim C8: `lcm(m, n)` is `0` when either operand is `0` and
`(|m| / gcd(m, n)) * |n|` otherwise, and the `gcd` it divides by is zero
exactly when both operands are zero, so the guarded branch never divides
by zero. -/
theorem C8_lcm_spec (m n : Int) :
    lcm m n = (if m = 0 ∨ n = 0 then 0 else (abs m / gcd m n) * abs n) ∧
    (gcd m n = 0 ↔ m = 0 ∧ n = 0) := by
  constructor
  · unfold lcm
    congr 1
    simp [mul_eq_zero]
  · exact gcd_eq_zero_iff m n

/-- Claim C10: the recursion in `units::gcd` terminates: when `n ≠ 0` the
second argument of the recursive call, `|m| mod |n|`, is strictly smaller
in magnitude than `n`, and the call itself is the equation the code
computes, so `gcd` (and `lcm` built on it) is a total function. -/
theorem C10_gcd_terminates (m n : Int) (h : n ≠ 0) :
    (abs m % abs n).natAbs < n.natAbs ∧
    gcd m n = gcd n (abs m % abs n) := by
  constructor
  · simp only [abs_eq_natAbs]
    exact emod_natAbs_lt m n h
  · rw [gcd_def]; simp [h]

theorem C10_gcd_terminates_witness :
    (7 : Int) ≠ 0 ∧ ((abs (-30) % abs 7).natAbs < (7 : Int).natAbs ∧
    gcd (-30) 7 = gcd 7 (abs (-30) % abs 7)) := by
  exact ⟨by decide, C10_gcd_terminates (-30) 7 (by decide)⟩

/-- Embeds `std::ratio<N, D>` normalisation (for the non-negative `size_t`
parameters used throughout `src/unit.hpp`): numerator and denominator are
divided by their greatest common divisor. -/
def ratioReduce (n d : Nat) : Nat × Nat := (n / Nat.gcd n d, d / Nat.gcd n d)

theorem ratioReduce_fst (n d : Nat) : (ratioReduce n d).1 = n / Nat.gcd n d := rfl

theorem ratioReduce_snd (n d : Nat) : (ratioReduce n d).2 = d / Nat.gcd n d := rfl

/-- Embeds `std::ratio_divide<R1, R2>`: the normalised ratio
`(R1::num * R2::den, R1::den * R2::num)`. -/
def ratio_divide (r s : Nat × Nat) : Nat × Nat := ratioReduce (r.1 * s.2) (r.2 * s.1)

/-- The `units::Unit` class template from `src/unit.hpp`.  The non-type
template parameters `Time, Distance, Luminance, Temperature, Radians,
Amperes, Mass, Num, Denom` become fields, as does the stored `value_`;
`ValueType` becomes the type parameter `α`. -/
structure Unit (α : Type) where
  time : Int
  distance : Int
  luminance : Int
  temperature : Int
  radians : Int
  amperes : Int
  mass : Int
  num : Nat
  denom : Nat
  value : α

/-- Embeds `Unit::scale`, i.e. `std::ratio<Num, Denom>` (normalised). -/
def Unit.scale {α : Type} (u : Unit α) : Nat × Nat := ratioReduce u.num u.denom

/-- Embeds `Unit::GetNum()`: `scale::num`. -/
def Unit.GetNum {α : Type} (u : Unit α) : Nat := u.scale.1

/-- Embeds `Unit::GetDen()`: `scale::den`. -/
def Unit.GetDen {α : Type} (u : Unit α) : Nat := u.scale.2

/-- Embeds `Unit::GetValue()`. -/
def Unit.GetValue {α : Type} (u : Unit α) : α := u.value

/-- The comparison ratio `s = std::ratio_divide<scale, other::scale>` used
by every comparison operator of `Unit`. -/
def Unit.cmpRatio {α : Type} (u v : Unit α) : Nat × Nat := ratio_divide u.scale v.scale

/-- Dimension-vector equality: the C++ comparison operators only accept an
operand whose seven dimension template arguments are identical. -/
abbrev Unit.sameDim {α : Type} (u v : Unit α) : Prop :=
  u.time = v.time ∧ u.distance = v.distance ∧ u.luminance = v.luminance ∧
  u.temperature = v.temperature ∧ u.radians = v.radians ∧
  u.amperes = v.amperes ∧ u.mass = v.mass

/-- Embeds `Unit::operator==`: `value_ * s::num == other.GetValue() * s::den`. -/
abbrev Unit.eqOp {α : Type} [Mul α] [NatCast α] (u v : Unit α) : Prop :=
  u.value * ((u.cmpRatio v).1 : α) = v.GetValue * ((u.cmpRatio v).2 : α)

/-- Embeds `Unit::operator!=`: `!(*this == other)`. -/
abbrev Unit.neOp {α : Type} [Mul α] [NatCast α] (u v : Unit α) : Prop := ¬ u.eqOp v

/-- Embeds `Unit::operator<`: `value_ * s::num < other.GetValue() * s::den`. -/
abbrev Unit.ltOp {α : Type} [Mul α] [NatCast α] [LT α] (u v : Unit α) : Prop :=
  u.value * ((u.cmpRatio v).1 : α) < v.GetValue * ((u.cmpRatio v).2 : α)

/-- Embeds `Unit::operator>`: `value_ * s::num > other.GetValue() * s::den`. -/
abbrev Unit.gtOp {α : Type} [Mul α] [NatCast α] [LT α] (u v : Unit α) : Prop :=
  u.value * ((u.cmpRatio v).1 : α) > v.GetValue * ((u.cmpRatio v).2 : α)

/-- Embeds `Unit::operator>=`: `!(*this < other)`. -/
abbrev Unit.geOp {α : Type} [Mul α] [NatCast α] [LT α] (u v : Unit α) : Prop := ¬ u.ltOp v

/-- Embeds `Unit::operator<=`: `!(*this > other)`. -/
abbrev Unit.leOp {α : Type} [Mul α] [NatCast α] [LT α] (u v : Unit α) : Prop := ¬ u.gtOp v

/-- Embeds `Unit::operator*` (quantity × quantity): the result type is
`Unit<ValueType, S + Time, M + Distance, C + Luminance, K + Temperature,
Rad + Radians, A + Amperes, KG + Mass, ratio<Num * Num2, Denom * Denom2>::num,
ratio<Num * Num2, Denom * Denom2>::den>` holding `value_ * other.GetValue()`. -/
def Unit.mul {α : Type} [Mul α] (u v : Unit α) : Unit α where
  time := v.time + u.time
  distance := v.distance + u.distance
  luminance := v.luminance + u.luminance
  temperature := v.temperature + u.temperature
  radians := v.radians + u.radians
  amperes := v.amperes + u.amperes
  mass := v.mass + u.mass
  num := (ratioReduce (u.num * v.num) (u.denom * v.denom)).1
  denom := (ratioReduce (u.num * v.num) (u.denom * v.denom)).2
  value := u.value * v.GetValue

/-- The tag computation of `Unit::operator/` (quantity ÷ quantity): result
type `Unit<ValueType, Time - S, Distance - M, Luminance + C, Temperature + K,
Radians + Rad, Amperes + A, Mass + KG, ratio<Num * Denom2, Denom * Num2>::num,
ratio<Num * Denom2, Denom * Num2>::den>`; the stored value `w` is supplied by
the storage-specific wrappers below. -/
def Unit.divFields {α β : Type} (u v : Unit α) (w : β) : Unit β where
  time := u.time - v.time
  distance := u.distance - v.distance
  luminance := u.luminance + v.luminance
  temperature := u.temperature + v.temperature
  radians := u.radians + v.radians
  amperes := u.amperes + v.amperes
  mass := u.mass + v.mass
  num := (ratioReduce (u.num * v.denom) (u.denom * v.num)).1
  denom := (ratioReduce (u.num * v.denom) (u.denom * v.num)).2
  value := w

/-- Embeds `Unit::operator/` for the `double` storage kind (modelled exactly by
`ℚ`): the stored value is `value_ / other.GetValue()`. -/
def Unit.divQ (u v : Unit ℚ) : Unit ℚ := u.divFields v (u.value / v.GetValue)

/-- Embeds `Unit::operator/` for the `int64_t` storage kind: C++ `/` on signed
integers truncates toward zero, i.e. `Int.tdiv`. -/
def Unit.divZ (u v : Unit Int) : Unit Int := u.divFields v (u.value.tdiv v.GetValue)

/-- The ratio `s = std::ratio_divide<units<Num2, Den2>::scale, scale>` used
by the conversion operator. -/
def Unit.convRatio {α : Type} (u : Unit α) (n2 d2 : Nat) : Nat × Nat :=
  ratio_divide (ratioReduce n2 d2) u.scale

/-- Embeds `Unit::operator units<Num2, Den2>()` for the `double` storage kind:
`units<Num2, Den2>(s::num * value_ / s::den)`. -/
def Unit.convertQ (u : Unit ℚ) (n2 d2 : Nat) : Unit ℚ :=
  { u with num := n2, denom := d2,
           value := ((u.convRatio n2 d2).1 : ℚ) * u.value / ((u.convRatio n2 d2).2 : ℚ) }

/-- Embeds `Unit::operator units<Num2, Den2>()` for the `int64_t` storage kind
(C++ truncated division). -/
def Unit.convertZ (u : Unit Int) (n2 d2 : Nat) : Unit Int :=
  { u with num := n2, denom := d2,
           value := (((u.convRatio n2 d2).1 : Int) * u.value).tdiv ((u.convRatio n2 d2).2 : Int) }

/-- Embeds `Unit::operator*` (quantity × arithmetic scalar): same tags, value
`value_ * c`. -/
def Unit.mulScalar {α : Type} [Mul α] (u : Unit α) (c : α) : Unit α :=
  { u with value := u.value * c }

/-- The stored-value update performed by the body of `Unit::operator*=`:
`value_ *= c`, after which the operator returns `*this`. -/
def Unit.mulAssign {α : Type} [Mul α] (u : Unit α) (c : α) : Unit α :=
  { u with value := u.value * c }

/-- The stored-value update performed by the body of `Unit::operator/=`
for the `double` storage kind: `value_ /= c`. -/
def Unit.divAssignQ (u : Unit ℚ) (c : ℚ) : Unit ℚ :=
  { u with value := u.value / c }

/-- The stored-value update performed by the body of `Unit::operator/=`
for the `int64_t` storage kind (C++ truncated division). -/
def Unit.divAssignZ (u : Unit Int) (c : Int) : Unit Int :=
  { u with value := u.value.tdiv c }

/-- Embeds `Unit::operator+`: both operands have the identical `Unit` type (same
dimension vector and same scale); the result holds `value_ + other.value_`. -/
def Unit.add {α : Type} [Add α] (u v : Unit α) : Unit α :=
  { u with value := u.value + v.value }

/-- The stored-value update written in the body of `Unit::operator+=`:
`value_ += other.value_` (see claim C9 for the `const` defect). -/
def Unit.addAssign {α : Type} [Add α] (u v : Unit α) : Unit α :=
  { u with value := u.value + v.value }

/-- Embeds `Unit::operator-`: same-type operands, value `value_ - other.value_`. -/
def Unit.sub {α : Type} [Sub α] (u v : Unit α) : Unit α :=
  { u with value := u.value - v.value }

/-- The stored-value update written in the body of `Unit::operator-=`:
`value_ -= other.value_` (see claim C9 for the `const` defect). -/
def Unit.subAssign {α : Type} [Sub α] (u v : Unit α) : Unit α :=
  { u with value := u.value - v.value }

theorem ratioReduce_coprime (n d : Nat) (h : Nat.Coprime n d) :
    ratioReduce n d = (n, d) := by
  unfold ratioReduce
  rw [Nat.Coprime.gcd_eq_one h]
  simp

theorem ratioReduce_pos (n d : Nat) (hn : 0 < n) (hd : 0 < d) :
    0 < (ratioReduce n d).1 ∧ 0 < (ratioReduce n d).2 := by
  have hg : 0 < Nat.gcd n d := Nat.gcd_pos_of_pos_left _ hn
  exact ⟨Nat.div_pos (Nat.le_of_dvd hn (Nat.gcd_dvd_left n d)) hg,
         Nat.div_pos (Nat.le_of_dvd hd (Nat.gcd_dvd_right n d)) hg⟩

theorem ratioReduce_cast_div (a b : Nat) (hb : b ≠ 0) :
    ((ratioReduce a b).1 : ℚ) / ((ratioReduce a b).2 : ℚ) = (a : ℚ) / (b : ℚ) := by
  rw [ratioReduce_fst, ratioReduce_snd]
  have hg : Nat.gcd a b ≠ 0 := fun h0 => hb (Nat.eq_zero_of_gcd_eq_zero_right h0)
  have hgq : ((Nat.gcd a b : ℕ) : ℚ) ≠ 0 := by exact_mod_cast hg
  rw [Nat.cast_div (Nat.gcd_dvd_left a b) hgq, Nat.cast_div (Nat.gcd_dvd_right a b) hgq]
  have hbq : (b : ℚ) ≠ 0 := by exact_mod_cast hb
  field_simp

theorem GetNum_eq_num {α : Type} (u : Unit α) (h : Nat.Coprime u.num u.denom) :
    u.GetNum = u.num := by
  unfold Unit.GetNum Unit.scale
  rw [ratioReduce_coprime _ _ h]

theorem GetDen_eq_denom {α : Type} (u : Unit α) (h : Nat.Coprime u.num u.denom) :
    u.GetDen = u.denom := by
  unfold Unit.GetDen Unit.scale
  rw [ratioReduce_coprime _ _ h]

/-- Claim C1: quantity division combines the dimension vectors
asymmetrically: the Time and Distance exponents of the result are the
differences (dividend minus divisor) while the Luminance, Temperature,
Angle, Current and Mass exponents are the sums, for both storage kinds. -/
theorem C1_div_dimension_rule :
    (∀ (u v : Unit ℚ),
      (u.divQ v).time = u.time - v.time ∧
      (u.divQ v).distance = u.distance - v.distance ∧
      (u.divQ v).luminance = u.luminance + v.luminance ∧
      (u.divQ v).temperature = u.temperature + v.temperature ∧
      (u.divQ v).radians = u.radians + v.radians ∧
      (u.divQ v).amperes = u.amperes + v.amperes ∧
      (u.divQ v).mass = u.mass + v.mass) ∧
    (∀ (u v : Unit Int),
      (u.divZ v).time = u.time - v.time ∧
      (u.divZ v).distance = u.distance - v.distance ∧
      (u.divZ v).luminance = u.luminance + v.luminance ∧
      (u.divZ v).temperature = u.temperature + v.temperature ∧
      (u.divZ v).radians = u.radians + v.radians ∧
      (u.divZ v).amperes = u.amperes + v.amperes ∧
      (u.divZ v).mass = u.mass + v.mass) :=
  ⟨fun _ _ => ⟨rfl, rfl, rfl, rfl, rfl, rfl, rfl⟩,
   fun _ _ => ⟨rfl, rfl, rfl, rfl, rfl, rfl, rfl⟩⟩

/-- Claim C2: every comparison operator on same-dimension quantities
compares `value1 * N` against `value2 * D`, where `(N, D)` is the reduced
ratio obtained by dividing the two scale ratios; concretely, 100 of the
base length times 1 second times 1 kilogram-scaled mass (scale 1000/1)
compares equal to 100 of the base length times 1 second times 1000 of the
unscaled mass unit (scale 1/1). -/
theorem C2_compare_spec :
    (∀ (α : Type) [LinearOrderedRing α] (u v : Unit α), u.sameDim v →
      ((u.eqOp v ↔ u.value * ((ratio_divide u.scale v.scale).1 : α)
                     = v.value * ((ratio_divide u.scale v.scale).2 : α)) ∧
       (u.neOp v ↔ ¬ (u.value * ((ratio_divide u.scale v.scale).1 : α)
                     = v.value * ((ratio_divide u.scale v.scale).2 : α))) ∧
       (u.ltOp v ↔ u.value * ((ratio_divide u.scale v.scale).1 : α)
                     < v.value * ((ratio_divide u.scale v.scale).2 : α)) ∧
       (u.gtOp v ↔ v.value * ((ratio_divide u.scale v.scale).2 : α)
                     < u.value * ((ratio_divide u.scale v.scale).1 : α)) ∧
       (u.leOp v ↔ u.value * ((ratio_divide u.scale v.scale).1 : α)
                     ≤ v.value * ((ratio_divide u.scale v.scale).2 : α)) ∧
       (u.geOp v ↔ v.value * ((ratio_divide u.scale v.scale).2 : α)
                     ≤ u.value * ((ratio_divide u.scale v.scale).1 : α)))) ∧
    (((⟨0, 1, 0, 0, 0, 0, 0, 1, 1, (100 : Int)⟩ : Unit Int).mul
        ⟨1, 0, 0, 0, 0, 0, 0, 1, 1, 1⟩ |>.mul ⟨0, 0, 0, 0, 0, 0, 1, 1000, 1, 1⟩).eqOp
     ((⟨0, 1, 0, 0, 0, 0, 0, 1, 1, (100 : Int)⟩ : Unit Int).mul
        ⟨1, 0, 0, 0, 0, 0, 0, 1, 1, 1⟩ |>.mul ⟨0, 0, 0, 0, 0, 0, 1, 1, 1, 1000⟩)) := by
  constructor
  · intro α _ u v _
    exact ⟨Iff.rfl, Iff.rfl, Iff.rfl, Iff.rfl, not_lt, not_lt⟩
  · decide

theorem C2_compare_spec_witness :
    ((⟨0, 0, 0, 0, 0, 0, 1, 1000, 1, (3 : Int)⟩ : Unit Int).sameDim
       ⟨0, 0, 0, 0, 0, 0, 1, 1, 1, (3000 : Int)⟩) ∧
    ((⟨0, 0, 0, 0, 0, 0, 1, 1000, 1, (3 : Int)⟩ : Unit Int).eqOp
       ⟨0, 0, 0, 0, 0, 0, 1, 1, 1, (3000 : Int)⟩ ↔
     (⟨0, 0, 0, 0, 0, 0, 1, 1000, 1, (3 : Int)⟩ : Unit Int).value *
       ((ratio_divide (⟨0, 0, 0, 0, 0, 0, 1, 1000, 1, (3 : Int)⟩ : Unit Int).scale
          (⟨0, 0, 0, 0, 0, 0, 1, 1, 1, (3000 : Int)⟩ : Unit Int).scale).1 : Int)
       = (⟨0, 0, 0, 0, 0, 0, 1, 1, 1, (3000 : Int)⟩ : Unit Int).value *
       ((ratio_divide (⟨0, 0, 0, 0, 0, 0, 1, 1000, 1, (3 : Int)⟩ : Unit Int).scale
          (⟨0, 0, 0, 0, 0, 0, 1, 1, 1, (3000 : Int)⟩ : Unit Int).scale).2 : Int)) :=
  ⟨by decide, (C2_compare_spec.1 Int _ _ (by decide)).1⟩

/-- Claim C5: multiplying two same-storage quantities adds the dimension
vectors component-wise, multiplies and reduces the scale ratios, and
multiplies the stored values; concretely scale 5/7 times scale 2/3 gives
scale 10/21 and values 2.0 and 3.0 give product value 6.0. -/
theorem C5_mul_spec :
    (∀ (α : Type) [Mul α] (u v : Unit α),
      Nat.Coprime u.num u.denom → Nat.Coprime v.num v.denom →
      ((u.mul v).time = u.time + v.time ∧
       (u.mul v).distance = u.distance + v.distance ∧
       (u.mul v).luminance = u.luminance + v.luminance ∧
       (u.mul v).temperature = u.temperature + v.temperature ∧
       (u.mul v).radians = u.radians + v.radians ∧
       (u.mul v).amperes = u.amperes + v.amperes ∧
       (u.mul v).mass = u.mass + v.mass) ∧
      ((u.mul v).num, (u.mul v).denom)
         = ratioReduce (u.GetNum * v.GetNum) (u.GetDen * v.GetDen) ∧
      (u.mul v).value = u.value * v.value) ∧
    (((⟨0, 0, 0, 0, 0, 0, 0, 5, 7, (2 : ℚ)⟩ : Unit ℚ).mul
        ⟨0, 0, 0, 0, 0, 0, 0, 2, 3, (3 : ℚ)⟩).num = 10 ∧
     ((⟨0, 0, 0, 0, 0, 0, 0, 5, 7, (2 : ℚ)⟩ : Unit ℚ).mul
        ⟨0, 0, 0, 0, 0, 0, 0, 2, 3, (3 : ℚ)⟩).denom = 21 ∧
     ((⟨0, 0, 0, 0, 0, 0, 0, 5, 7, (2 : ℚ)⟩ : Unit ℚ).mul
        ⟨0, 0, 0, 0, 0, 0, 0, 2, 3, (3 : ℚ)⟩).value = 6) := by
  constructor
  · intro α _ u v h1 h2
    refine ⟨⟨add_comm v.time u.time, add_comm v.distance u.distance,
             add_comm v.luminance u.luminance, add_comm v.temperature u.temperature,
             add_comm v.radians u.radians, add_comm v.amperes u.amperes,
             add_comm v.mass u.mass⟩, ?_, rfl⟩
    rw [GetNum_eq_num u h1, GetNum_eq_num v h2, GetDen_eq_denom u h1, GetDen_eq_denom v h2]
    exact Prod.mk.eta
  · refine ⟨by decide, by decide, ?_⟩
    norm_num [Unit.mul, Unit.GetValue]

theorem C5_mul_spec_witness :
    Nat.Coprime (⟨0, 0, 0, 0, 0, 0, 0, 5, 7, (2 : ℚ)⟩ : Unit ℚ).num
      (⟨0, 0, 0, 0, 0, 0, 0, 5, 7, (2 : ℚ)⟩ : Unit ℚ).denom ∧
    Nat.Coprime (⟨0, 0, 0, 0, 0, 0, 0, 2, 3, (3 : ℚ)⟩ : Unit ℚ).num
      (⟨0, 0, 0, 0, 0, 0, 0, 2, 3, (3 : ℚ)⟩ : Unit ℚ).denom ∧
    (((⟨0, 0, 0, 0, 0, 0, 0, 5, 7, (2 : ℚ)⟩ : Unit ℚ).mul
        ⟨0, 0, 0, 0, 0, 0, 0, 2, 3, (3 : ℚ)⟩).num,
     ((⟨0, 0, 0, 0, 0, 0, 0, 5, 7, (2 : ℚ)⟩ : Unit ℚ).mul
        ⟨0, 0, 0, 0, 0, 0, 0, 2, 3, (3 : ℚ)⟩).denom)
      = ratioReduce
          ((⟨0, 0, 0, 0, 0, 0, 0, 5, 7, (2 : ℚ)⟩ : Unit ℚ).GetNum *
           (⟨0, 0, 0, 0, 0, 0, 0, 2, 3, (3 : ℚ)⟩ : Unit ℚ).GetNum)
          ((⟨0, 0, 0, 0, 0, 0, 0, 5, 7, (2 : ℚ)⟩ : Unit ℚ).GetDen *
           (⟨0, 0, 0, 0, 0, 0, 0, 2, 3, (3 : ℚ)⟩ : Unit ℚ).GetDen) :=
  ⟨by decide, by decide,
   (C5_mul_spec.1 ℚ ⟨0, 0, 0, 0, 0, 0, 0, 5, 7, (2 : ℚ)⟩
      ⟨0, 0, 0, 0, 0, 0, 0, 2, 3, (3 : ℚ)⟩ (by decide) (by decide)).2.1⟩

/-- Claim C6: dividing two same-storage quantities reduces the crossed
scale products `(N1*D2, D1*N2)` and divides the stored values; concretely
scale 5/7 over scale 2/3 gives scale 15/14, and values 2.0 and 3.0 give
quotient value 2/3. -/
theorem C6_div_scale_value :
    (∀ (u v : Unit ℚ),
      Nat.Coprime u.num u.denom → Nat.Coprime v.num v.denom →
      ((u.divQ v).num, (u.divQ v).denom)
         = ratioReduce (u.GetNum * v.GetDen) (u.GetDen * v.GetNum) ∧
      (u.divQ v).value = u.value / v.value) ∧
    (∀ (u v : Unit Int),
      Nat.Coprime u.num u.denom → Nat.Coprime v.num v.denom →
      ((u.divZ v).num, (u.divZ v).denom)
         = ratioReduce (u.GetNum * v.GetDen) (u.GetDen * v.GetNum) ∧
      (u.divZ v).value = u.value.tdiv v.value) ∧
    (((⟨0, 0, 0, 0, 0, 0, 0, 5, 7, (2 : ℚ)⟩ : Unit ℚ).divQ
        ⟨0, 0, 0, 0, 0, 0, 0, 2, 3, (3 : ℚ)⟩).num = 15 ∧
     ((⟨0, 0, 0, 0, 0, 0, 0, 5, 7, (2 : ℚ)⟩ : Unit ℚ).divQ
        ⟨0, 0, 0, 0, 0, 0, 0, 2, 3, (3 : ℚ)⟩).denom = 14 ∧
     ((⟨0, 0, 0, 0, 0, 0, 0, 5, 7, (2 : ℚ)⟩ : Unit ℚ).divQ
        ⟨0, 0, 0, 0, 0, 0, 0, 2, 3, (3 : ℚ)⟩).value = 2 / 3) := by
  refine ⟨?_, ?_, by decide, by decide, ?_⟩
  · intro u v h1 h2
    refine ⟨?_, rfl⟩
    rw [GetNum_eq_num u h1, GetNum_eq_num v h2, GetDen_eq_denom u h1, GetDen_eq_denom v h2]
    exact Prod.mk.eta
  · intro u v h1 h2
    refine ⟨?_, rfl⟩
    rw [GetNum_eq_num u h1, GetNum_eq_num v h2, GetDen_eq_denom u h1, GetDen_eq_denom v h2]
    exact Prod.mk.eta
  · norm_num [Unit.divQ, Unit.divFields, Unit.GetValue]

theorem C6_div_scale_value_witness :
    Nat.Coprime (⟨0, 0, 0, 0, 0, 0, 0, 5, 7, (2 : ℚ)⟩ : Unit ℚ).num
      (⟨0, 0, 0, 0, 0, 0, 0, 5, 7, (2 : ℚ)⟩ : Unit ℚ).denom ∧
    Nat.Coprime (⟨0, 0, 0, 0, 0, 0, 0, 2, 3, (3 : ℚ)⟩ : Unit ℚ).num
      (⟨0, 0, 0, 0, 0, 0, 0, 2, 3, (3 : ℚ)⟩ : Unit ℚ).denom ∧
    (((⟨0, 0, 0, 0, 0, 0, 0, 5, 7, (2 : ℚ)⟩ : Unit ℚ).divQ
        ⟨0, 0, 0, 0, 0, 0, 0, 2, 3, (3 : ℚ)⟩).num,
     ((⟨0, 0, 0, 0, 0, 0, 0, 5, 7, (2 : ℚ)⟩ : Unit ℚ).divQ
        ⟨0, 0, 0, 0, 0, 0, 0, 2, 3, (3 : ℚ)⟩).denom)
      = ratioReduce
          ((⟨0, 0, 0, 0, 0, 0, 0, 5, 7, (2 : ℚ)⟩ : Unit ℚ).GetNum *
           (⟨0, 0, 0, 0, 0, 0, 0, 2, 3, (3 : ℚ)⟩ : Unit ℚ).GetDen)
          ((⟨0, 0, 0, 0, 0, 0, 0, 5, 7, (2 : ℚ)⟩ : Unit ℚ).GetDen *
           (⟨0, 0, 0, 0, 0, 0, 0, 2, 3, (3 : ℚ)⟩ : Unit ℚ).GetNum) :=
  ⟨by decide, by decide,
   (C6_div_scale_value.1 ⟨0, 0, 0, 0, 0, 0, 0, 5, 7, (2 : ℚ)⟩
      ⟨0, 0, 0, 0, 0, 0, 0, 2, 3, (3 : ℚ)⟩ (by decide) (by decide)).1⟩

theorem ratioReduce_swap (a b : Nat) :
    ratioReduce b a = ((ratioReduce a b).2, (ratioReduce a b).1) := by
  unfold ratioReduce
  rw [Nat.gcd_comm b a]

/-- Claim C3 (counterexample): for `int64_t` storage the converted value is
not `v` scaled by the reduced target-over-current ratio: converting value 1
at scale 1/1 to scale 1/1000 has reduced conversion ratio (1, 1000) and
stores the truncated quotient 0, and `0 * 1000 ≠ 1 * 1`. -/
theorem C3_convert_counterexample :
    ((⟨0, 0, 0, 0, 0, 0, 0, 1, 1, (1 : Int)⟩ : Unit Int).convertZ 1 1000).value = 0 ∧
    ¬ (((⟨0, 0, 0, 0, 0, 0, 0, 1, 1, (1 : Int)⟩ : Unit Int).convertZ 1 1000).value *
         (((⟨0, 0, 0, 0, 0, 0, 0, 1, 1, (1 : Int)⟩ : Unit Int).convRatio 1 1000).2 : Int)
       = (((⟨0, 0, 0, 0, 0, 0, 0, 1, 1, (1 : Int)⟩ : Unit Int).convRatio 1 1000).1 : Int) *
         (⟨0, 0, 0, 0, 0, 0, 0, 1, 1, (1 : Int)⟩ : Unit Int).value) :=
  ⟨by decide, by decide⟩

/-- Claim C3 (amended): converting a quantity of scale `(Num, Den)` holding
`v` to the same-dimension type of scale `(Num2, Den2)` keeps the dimension
vector, installs the target scale parameters, and stores
`s::num * v / s::den` under the storage type's division, where
`(s::num, s::den)` is the reduced ratio obtained by dividing the target
ratio by the current ratio: for the exact-rational model of floating
storage the new value is exactly `v * (Num2 * Den) / (Den2 * Num)`, i.e.
`v * ((Num2/Den2) / (Num/Den))`, while for integral storage the division
truncates toward zero and agrees with the exact scaling whenever that
division is exact. -/
theorem C3_convert_spec :
    (∀ (u : Unit ℚ) (n2 d2 : Nat),
      0 < u.num → 0 < u.denom → 0 < n2 → 0 < d2 →
      (u.convertQ n2 d2).sameDim u ∧
      (u.convertQ n2 d2).num = n2 ∧ (u.convertQ n2 d2).denom = d2 ∧
      (u.convertQ n2 d2).value = u.value * (((n2 : ℚ) * u.denom) / ((d2 : ℚ) * u.num)) ∧
      (u.convertQ n2 d2).value
        = u.value * (((n2 : ℚ) / (d2 : ℚ)) / ((u.GetNum : ℚ) / (u.GetDen : ℚ)))) ∧
    (∀ (u : Unit Int) (n2 d2 : Nat),
      (u.convertZ n2 d2).sameDim u ∧
      (u.convertZ n2 d2).num = n2 ∧ (u.convertZ n2 d2).denom = d2 ∧
      (u.convertZ n2 d2).value
        = (((ratio_divide (ratioReduce n2 d2) u.scale).1 : Int) * u.value).tdiv
            ((ratio_divide (ratioReduce n2 d2) u.scale).2 : Int)) ∧
    (∀ (u : Unit Int) (n2 d2 : Nat),
      0 < u.num → 0 < u.denom → 0 < n2 → 0 < d2 →
      ((u.convRatio n2 d2).2 : Int) ∣ ((u.convRatio n2 d2).1 : Int) * u.value →
      (u.convertZ n2 d2).value * ((u.convRatio n2 d2).2 : Int)
        = ((u.convRatio n2 d2).1 : Int) * u.value) := by
  refine ⟨?_, ?_, ?_⟩
  · intro u n2 d2 hn hd h2 hd2
    have hp1 := ratioReduce_pos u.num u.denom hn hd
    have hp2 := ratioReduce_pos n2 d2 h2 hd2
    have e1 : ((ratioReduce u.num u.denom).1 : ℚ) / ((ratioReduce u.num u.denom).2 : ℚ)
        = (u.num : ℚ) / (u.denom : ℚ) := ratioReduce_cast_div u.num u.denom (by omega)
    have e2 : ((ratioReduce n2 d2).1 : ℚ) / ((ratioReduce n2 d2).2 : ℚ)
        = (n2 : ℚ) / (d2 : ℚ) := ratioReduce_cast_div n2 d2 (by omega)
    have e1sw : ((ratioReduce u.num u.denom).2 : ℚ) / ((ratioReduce u.num u.denom).1 : ℚ)
        = (u.denom : ℚ) / (u.num : ℚ) := by
      rw [← inv_div ((ratioReduce u.num u.denom).1 : ℚ) ((ratioReduce u.num u.denom).2 : ℚ),
          e1, inv_div]
    have hv : (u.convertQ n2 d2).value
        = u.value * (((n2 : ℚ) * u.denom) / ((d2 : ℚ) * u.num)) := by
      show ((ratio_divide (ratioReduce n2 d2) (ratioReduce u.num u.denom)).1 : ℚ) * u.value /
            ((ratio_divide (ratioReduce n2 d2) (ratioReduce u.num u.denom)).2 : ℚ) = _
      show ((ratioReduce ((ratioReduce n2 d2).1 * (ratioReduce u.num u.denom).2)
              ((ratioReduce n2 d2).2 * (ratioReduce u.num u.denom).1)).1 : ℚ) * u.value /
            ((ratioReduce ((ratioReduce n2 d2).1 * (ratioReduce u.num u.denom).2)
              ((ratioReduce n2 d2).2 * (ratioReduce u.num u.denom).1)).2 : ℚ) = _
      have hb : (ratioReduce n2 d2).2 * (ratioReduce u.num u.denom).1 ≠ 0 :=
        Nat.mul_ne_zero (by omega) (by omega)
      have e0 := ratioReduce_cast_div
        ((ratioReduce n2 d2).1 * (ratioReduce u.num u.denom).2)
        ((ratioReduce n2 d2).2 * (ratioReduce u.num u.denom).1) hb
      rw [show ∀ (x y v : ℚ), x * v / y = v * (x / y) from fun x y v => by ring]
      rw [e0]
      push_cast
      rw [← div_mul_div_comm, e2, e1sw, div_mul_div_comm]
    refine ⟨⟨rfl, rfl, rfl, rfl, rfl, rfl, rfl⟩, rfl, rfl, hv, ?_⟩
    rw [hv]
    unfold Unit.GetNum Unit.GetDen Unit.scale
    rw [e1]
    have hnq : (u.num : ℚ) ≠ 0 := Nat.cast_ne_zero.mpr (by omega)
    have hdq : (u.denom : ℚ) ≠ 0 := Nat.cast_ne_zero.mpr (by omega)
    have hd2q : (d2 : ℚ) ≠ 0 := Nat.cast_ne_zero.mpr (by omega)
    congr 1
    field_simp
  · intro u n2 d2
    exact ⟨⟨rfl, rfl, rfl, rfl, rfl, rfl, rfl⟩, rfl, rfl, rfl⟩
  · intro u n2 d2 hn hd h2 hd2 hdvd
    have hp1 := ratioReduce_pos u.num u.denom hn hd
    have hp2 := ratioReduce_pos n2 d2 h2 hd2
    have ha : 0 < (ratioReduce n2 d2).1 * (ratioReduce u.num u.denom).2 :=
      Nat.mul_pos hp2.1 hp1.2
    have hb : 0 < (ratioReduce n2 d2).2 * (ratioReduce u.num u.denom).1 :=
      Nat.mul_pos hp2.2 hp1.1
    have hs1 := ratioReduce_pos _ _ ha hb
    have hz2 : ((u.convRatio n2 d2).2 : Int) ≠ 0 := by
      have hq : (u.convRatio n2 d2).2
          = (ratioReduce ((ratioReduce n2 d2).1 * (ratioReduce u.num u.denom).2)
              ((ratioReduce n2 d2).2 * (ratioReduce u.num u.denom).1)).2 := rfl
      rw [hq]
      exact_mod_cast Nat.pos_iff_ne_zero.mp hs1.2
    obtain ⟨k, hk⟩ := hdvd
    show ((((u.convRatio n2 d2).1 : Int) * u.value).tdiv ((u.convRatio n2 d2).2 : Int)) *
          ((u.convRatio n2 d2).2 : Int) = ((u.convRatio n2 d2).1 : Int) * u.value
    rw [hk, Int.mul_tdiv_cancel_left k hz2, mul_comm]

theorem C3_convert_spec_witness :
    (0 < (⟨0, 0, 0, 0, 0, 0, 0, 1, 1, (5 : ℚ)⟩ : Unit ℚ).num ∧
     0 < (⟨0, 0, 0, 0, 0, 0, 0, 1, 1, (5 : ℚ)⟩ : Unit ℚ).denom ∧
     0 < 3 ∧ 0 < 2 ∧
     ((⟨0, 0, 0, 0, 0, 0, 0, 1, 1, (5 : ℚ)⟩ : Unit ℚ).convertQ 3 2).value
       = (⟨0, 0, 0, 0, 0, 0, 0, 1, 1, (5 : ℚ)⟩ : Unit ℚ).value *
         (((3 : ℚ) * (⟨0, 0, 0, 0, 0, 0, 0, 1, 1, (5 : ℚ)⟩ : Unit ℚ).denom) /
          ((2 : ℚ) * (⟨0, 0, 0, 0, 0, 0, 0, 1, 1, (5 : ℚ)⟩ : Unit ℚ).num))) ∧
    (0 < (⟨0, 0, 0, 0, 0, 0, 0, 1, 1, (4 : Int)⟩ : Unit Int).num ∧
     0 < (⟨0, 0, 0, 0, 0, 0, 0, 1, 1, (4 : Int)⟩ : Unit Int).denom ∧
     0 < 5 ∧ 0 < 2 ∧
     (((⟨0, 0, 0, 0, 0, 0, 0, 1, 1, (4 : Int)⟩ : Unit Int).convRatio 5 2).2 : Int) ∣
       (((⟨0, 0, 0, 0, 0, 0, 0, 1, 1, (4 : Int)⟩ : Unit Int).convRatio 5 2).1 : Int) *
       (⟨0, 0, 0, 0, 0, 0, 0, 1, 1, (4 : Int)⟩ : Unit Int).value ∧
     ((⟨0, 0, 0, 0, 0, 0, 0, 1, 1, (4 : Int)⟩ : Unit Int).convertZ 5 2).value *
       (((⟨0, 0, 0, 0, 0, 0, 0, 1, 1, (4 : Int)⟩ : Unit Int).convRatio 5 2).2 : Int)
       = (((⟨0, 0, 0, 0, 0, 0, 0, 1, 1, (4 : Int)⟩ : Unit Int).convRatio 5 2).1 : Int) *
         (⟨0, 0, 0, 0, 0, 0, 0, 1, 1, (4 : Int)⟩ : Unit Int).value) :=
  ⟨⟨by decide, by decide, by decide, by decide,
    (C3_convert_spec.1 ⟨0, 0, 0, 0, 0, 0, 0, 1, 1, (5 : ℚ)⟩ 3 2
       (by decide) (by decide) (by decide) (by decide)).2.2.2.1⟩,
   ⟨by decide, by decide, by decide, by decide, by decide,
    C3_convert_spec.2.2 ⟨0, 0, 0, 0, 0, 0, 0, 1, 1, (4 : Int)⟩ 5 2
      (by decide) (by decide) (by decide) (by decide) (by decide)⟩⟩

/-- Claim C4 (counterexample): for integral storage the scale-conversion
round trip is not exact: the `int64_t` quantity with value 1 at scale 1/1,
converted to scale 1/1000 and back, holds 0, not 1. -/
theorem C4_roundtrip_counterexample :
    ¬ ((((⟨0, 0, 0, 0, 0, 0, 0, 1, 1, (1 : Int)⟩ : Unit Int).convertZ 1 1000).convertZ 1 1).value
        = (⟨0, 0, 0, 0, 0, 0, 0, 1, 1, (1 : Int)⟩ : Unit Int).value) := by
  decide

/-- Claim C4 (amended): converting a quantity to a different scale and back
to the original scale reproduces the stored value for the exact-rational
model of floating storage always, and for integral storage whenever the
intermediate truncated division is exact, i.e. whenever the reduced
conversion denominator divides the scaled value (in general the integral
round trip truncates, see the counterexample). -/
theorem C4_roundtrip_amended :
    (∀ (u : Unit ℚ) (n2 d2 : Nat),
      0 < u.num → 0 < u.denom → 0 < n2 → 0 < d2 →
      ((u.convertQ n2 d2).convertQ u.num u.denom).value = u.value) ∧
    (∀ (u : Unit Int) (n2 d2 : Nat),
      0 < u.num → 0 < u.denom → 0 < n2 → 0 < d2 →
      ((u.convRatio n2 d2).2 : Int) ∣ ((u.convRatio n2 d2).1 : Int) * u.value →
      ((u.convertZ n2 d2).convertZ u.num u.denom).value = u.value) := by
  constructor
  · intro u n2 d2 hn hd h2 hd2
    have hp1 := ratioReduce_pos u.num u.denom hn hd
    have hp2 := ratioReduce_pos n2 d2 h2 hd2
    have ha : 0 < (ratioReduce n2 d2).1 * (ratioReduce u.num u.denom).2 :=
      Nat.mul_pos hp2.1 hp1.2
    have hb : 0 < (ratioReduce n2 d2).2 * (ratioReduce u.num u.denom).1 :=
      Nat.mul_pos hp2.2 hp1.1
    have hs1 := ratioReduce_pos _ _ ha hb
    have hs2 := ratioReduce_pos _ _ hb ha
    have eA := ratioReduce_cast_div
      ((ratioReduce n2 d2).1 * (ratioReduce u.num u.denom).2)
      ((ratioReduce n2 d2).2 * (ratioReduce u.num u.denom).1) (by omega)
    have eB := ratioReduce_cast_div
      ((ratioReduce n2 d2).2 * (ratioReduce u.num u.denom).1)
      ((ratioReduce n2 d2).1 * (ratioReduce u.num u.denom).2) (by omega)
    show ((Unit.convRatio _ u.num u.denom).1 : ℚ) *
          (((u.convRatio n2 d2).1 * u.value / ((u.convRatio n2 d2).2 : ℚ))) /
          ((Unit.convRatio _ u.num u.denom).2 : ℚ) = u.value
    show ((ratio_divide (ratioReduce u.num u.denom) (ratioReduce n2 d2)).1 : ℚ) *
          (((ratio_divide (ratioReduce n2 d2) (ratioReduce u.num u.denom)).1 : ℚ) * u.value /
            ((ratio_divide (ratioReduce n2 d2) (ratioReduce u.num u.denom)).2 : ℚ)) /
          ((ratio_divide (ratioReduce u.num u.denom) (ratioReduce n2 d2)).2 : ℚ) = u.value
    unfold ratio_divide
    rw [show ∀ (x y z w v : ℚ), x * (y * v / z) / w = v * ((y / z) * (x / w)) from
          fun x y z w v => by ring]
    rw [eA]
    rw [show (ratioReduce u.num u.denom).1 * (ratioReduce n2 d2).2
          = (ratioReduce n2 d2).2 * (ratioReduce u.num u.denom).1 from Nat.mul_comm _ _,
        show (ratioReduce u.num u.denom).2 * (ratioReduce n2 d2).1
          = (ratioReduce n2 d2).1 * (ratioReduce u.num u.denom).2 from Nat.mul_comm _ _]
    rw [eB]
    have hca : ((((ratioReduce n2 d2).1 * (ratioReduce u.num u.denom).2 : ℕ)) : ℚ) ≠ 0 :=
      Nat.cast_ne_zero.mpr (by omega)
    have hcb : ((((ratioReduce n2 d2).2 * (ratioReduce u.num u.denom).1 : ℕ)) : ℚ) ≠ 0 :=
      Nat.cast_ne_zero.mpr (by omega)
    rw [div_mul_div_comm, mul_comm
      ((((ratioReduce n2 d2).1 * (ratioReduce u.num u.denom).2 : ℕ)) : ℚ)]
    rw [div_self (by exact mul_ne_zero hcb hca), mul_one]
  · intro u n2 d2 hn hd h2 hd2 hdvd
    have hp1 := ratioReduce_pos u.num u.denom hn hd
    have hp2 := ratioReduce_pos n2 d2 h2 hd2
    have ha : 0 < (ratioReduce n2 d2).1 * (ratioReduce u.num u.denom).2 :=
      Nat.mul_pos hp2.1 hp1.2
    have hb : 0 < (ratioReduce n2 d2).2 * (ratioReduce u.num u.denom).1 :=
      Nat.mul_pos hp2.2 hp1.1
    have hs1 := ratioReduce_pos _ _ ha hb
    obtain ⟨k, hk⟩ := hdvd
    have hz2 : ((u.convRatio n2 d2).2 : Int) ≠ 0 := by
      have hq : (u.convRatio n2 d2).2
          = (ratioReduce ((ratioReduce n2 d2).1 * (ratioReduce u.num u.denom).2)
              ((ratioReduce n2 d2).2 * (ratioReduce u.num u.denom).1)).2 := rfl
      rw [hq]
      exact_mod_cast Nat.pos_iff_ne_zero.mp hs1.2
    have hz1 : ((u.convRatio n2 d2).1 : Int) ≠ 0 := by
      have hq : (u.convRatio n2 d2).1
          = (ratioReduce ((ratioReduce n2 d2).1 * (ratioReduce u.num u.denom).2)
              ((ratioReduce n2 d2).2 * (ratioReduce u.num u.denom).1)).1 := rfl
      rw [hq]
      exact_mod_cast Nat.pos_iff_ne_zero.mp hs1.1
    show ((((Unit.convRatio (u.convertZ n2 d2) u.num u.denom).1 : Int) *
            ((((u.convRatio n2 d2).1 : Int) * u.value).tdiv ((u.convRatio n2 d2).2 : Int))).tdiv
          ((Unit.convRatio (u.convertZ n2 d2) u.num u.denom).2 : Int)) = u.value
    have hmid : (((u.convRatio n2 d2).1 : Int) * u.value).tdiv ((u.convRatio n2 d2).2 : Int)
        = k := by
      rw [hk, Int.mul_tdiv_cancel_left k hz2]
    rw [hmid]
    have hswap : Unit.convRatio (u.convertZ n2 d2) u.num u.denom
        = ((u.convRatio n2 d2).2, (u.convRatio n2 d2).1) := by
      show ratio_divide (ratioReduce u.num u.denom) (Unit.scale _) = _
      show ratio_divide (ratioReduce u.num u.denom) (ratioReduce n2 d2) = _
      unfold ratio_divide Unit.convRatio Unit.scale
      rw [Nat.mul_comm (ratioReduce u.num u.denom).1 (ratioReduce n2 d2).2,
          Nat.mul_comm (ratioReduce u.num u.denom).2 (ratioReduce n2 d2).1]
      exact ratioReduce_swap _ _
    rw [hswap]
    show (((u.convRatio n2 d2).2 : Int) * k).tdiv ((u.convRatio n2 d2).1 : Int) = u.value
    rw [← hk, Int.mul_tdiv_cancel_left u.value hz1]

theorem C4_roundtrip_amended_witness :
    (0 < (⟨0, 0, 0, 0, 0, 0, 0, 1, 1, (5 : ℚ)⟩ : Unit ℚ).num ∧
     0 < (⟨0, 0, 0, 0, 0, 0, 0, 1, 1, (5 : ℚ)⟩ : Unit ℚ).denom ∧
     0 < 1 ∧ 0 < 1000 ∧
     (((⟨0, 0, 0, 0, 0, 0, 0, 1, 1, (5 : ℚ)⟩ : Unit ℚ).convertQ 1 1000).convertQ 1 1).value
       = (⟨0, 0, 0, 0, 0, 0, 0, 1, 1, (5 : ℚ)⟩ : Unit ℚ).value) ∧
    (0 < (⟨0, 0, 0, 0, 0, 0, 0, 1, 1, (7 : Int)⟩ : Unit Int).num ∧
     0 < (⟨0, 0, 0, 0, 0, 0, 0, 1, 1, (7 : Int)⟩ : Unit Int).denom ∧
     0 < 3 ∧ 0 < 1 ∧
     (((⟨0, 0, 0, 0, 0, 0, 0, 1, 1, (7 : Int)⟩ : Unit Int).convRatio 3 1).2 : Int) ∣
       (((⟨0, 0, 0, 0, 0, 0, 0, 1, 1, (7 : Int)⟩ : Unit Int).convRatio 3 1).1 : Int) *
       (⟨0, 0, 0, 0, 0, 0, 0, 1, 1, (7 : Int)⟩ : Unit Int).value ∧
     (((⟨0, 0, 0, 0, 0, 0, 0, 1, 1, (7 : Int)⟩ : Unit Int).convertZ 3 1).convertZ 1 1).value
       = (⟨0, 0, 0, 0, 0, 0, 0, 1, 1, (7 : Int)⟩ : Unit Int).value) :=
  ⟨⟨by decide, by decide, by decide, by decide,
    C4_roundtrip_amended.1 ⟨0, 0, 0, 0, 0, 0, 0, 1, 1, (5 : ℚ)⟩ 1 1000
      (by decide) (by decide) (by decide) (by decide)⟩,
   ⟨by decide, by decide, by decide, by decide, by decide,
    C4_roundtrip_amended.2 ⟨0, 0, 0, 0, 0, 0, 0, 1, 1, (7 : Int)⟩ 3 1
      (by decide) (by decide) (by decide) (by decide) (by decide)⟩⟩

/-- Claim C9: the stored-value updates written in the bodies of the four
compound assignment operators change only the stored value — by the
corresponding binary operation — and leave the dimension vector and scale
ratio of the quantity unchanged.  (The enclosing `operator+=` and
`operator-=` are declared `const`, which makes any instantiation of them
ill-formed C++; this theorem records the semantics intended by their bodies
and by the doc comments of the header itself.) -/
theorem C9_compound_assign_model :
    ∀ (α : Type) [Mul α] [Add α] [Sub α] (u v : Unit α) (c : α)
      (q : Unit ℚ) (d : ℚ) (w : Unit Int) (e : Int),
      ((u.mulAssign c).value = u.value * c ∧ (u.mulAssign c).sameDim u ∧
       (u.mulAssign c).num = u.num ∧ (u.mulAssign c).denom = u.denom) ∧
      ((q.divAssignQ d).value = q.value / d ∧ (q.divAssignQ d).sameDim q ∧
       (q.divAssignQ d).num = q.num ∧ (q.divAssignQ d).denom = q.denom) ∧
      ((w.divAssignZ e).value = w.value.tdiv e ∧ (w.divAssignZ e).sameDim w ∧
       (w.divAssignZ e).num = w.num ∧ (w.divAssignZ e).denom = w.denom) ∧
      ((u.addAssign v).value = u.value + v.value ∧ (u.addAssign v).sameDim u ∧
       (u.addAssign v).num = u.num ∧ (u.addAssign v).denom = u.denom) ∧
      ((u.subAssign v).value = u.value - v.value ∧ (u.subAssign v).sameDim u ∧
       (u.subAssign v).num = u.num ∧ (u.subAssign v).denom = u.denom) :=
  fun _ _ _ _ _ _ _ _ _ _ _ =>
    ⟨⟨rfl, ⟨rfl, rfl, rfl, rfl, rfl, rfl, rfl⟩, rfl, rfl⟩,
     ⟨rfl, ⟨rfl, rfl, rfl, rfl, rfl, rfl, rfl⟩, rfl, rfl⟩,
     ⟨rfl, ⟨rfl, rfl, rfl, rfl, rfl, rfl, rfl⟩, rfl, rfl⟩,
     ⟨rfl, ⟨rfl, rfl, rfl, rfl, rfl, rfl, rfl⟩, rfl, rfl⟩,
     ⟨rfl, ⟨rfl, rfl, rfl, rfl, rfl, rfl, rfl⟩, rfl, rfl⟩⟩

end units
